import Mathlib

/-!
Shallow embedding of `src/DOWNLOAD_IMAGES.py` (Urban Ways image download and
optimization script).  The script iterates over a fixed list of 29 Unsplash
photo ids, and for each: skips the item when the output file already exists,
otherwise fetches the bytes over HTTP, decodes them with Pillow, normalizes
the color mode to opaque RGB (compositing alpha/palette images onto a white
background), re-encodes as WebP with quality 85, method 6, lossless=False,
and writes the file.  A driver loop counts successes, sums output file sizes
and prints a summary; every per-item error is caught at the item boundary.

Pillow (`PIL`) and `requests` are external libraries; the parts of their
behavior visible to the script (image modes/bands, `convert`, `paste` with a
mask blend, `split`, `raise_for_status`) are modelled explicitly below, and
the network, the image decoder and the WebP encoder are oracles packaged in
an `Env` record, over which the theorems quantify.
-/

namespace DownloadImages

/-- Pillow image modes that can reach the script (`Image.open` result modes). -/
inductive Mode where
  | one      -- "1" bilevel
  | L        -- 8-bit grayscale
  | LA       -- grayscale with alpha
  | P        -- palette
  | PA       -- palette with alpha
  | RGB
  | RGBA
  | RGBX
  | CMYK
  | YCbCr
  | I        -- 32-bit integer pixels
  | F        -- float pixels
deriving DecidableEq, Repr

/-- Number of bands of a Pillow mode (`len(img.split())`). -/
def bands : Mode → Nat
  | .one => 1 | .L => 1 | .LA => 2 | .P => 1 | .PA => 2
  | .RGB => 3 | .RGBA => 4 | .RGBX => 4 | .CMYK => 4
  | .YCbCr => 3 | .I => 1 | .F => 1

/-- Whether a Pillow mode carries an alpha band. -/
def modeHasAlpha : Mode → Bool
  | .LA => true | .PA => true | .RGBA => true | _ => false

/-- A decoded image: mode, size, a total pixel function (x, y, band index →
channel value 0..255) and, for palette images, the RGBA palette
(index, band → value).  Bands beyond `bands mode` are never consulted. -/
structure Img where
  mode : Mode
  width : Nat
  height : Nat
  px : Nat → Nat → Nat → Nat
  palette : Nat → Nat → Nat

/-- `Image.new('RGB', size, (255, 255, 255))`: an opaque white RGB canvas. -/
def imageNewRGBWhite (w h : Nat) : Img :=
  { mode := .RGB, width := w, height := h
    px := fun _ _ _ => 255
    palette := fun _ _ => 0 }

/-- Channel `c` (0,1,2) of a pixel of mode `m` seen as RGB: Pillow's
per-mode color conversion, as used when a non-RGB image is pasted into an
RGB image or converted to RGB.  Grayscale-like modes replicate their single
band, RGB-like modes pass their first three bands through (alpha dropped,
not composited), palette modes look up the palette, CMYK uses the
`(255-C)*(255-K)/255` formula. -/
def toRGBchannel (m : Mode) (p : Nat → Nat) (pal : Nat → Nat → Nat) (c : Nat) : Nat :=
  match m with
  | .one => p 0
  | .L => p 0
  | .LA => p 0
  | .I => p 0
  | .F => p 0
  | .P => pal (p 0) c
  | .PA => pal (p 0) c
  | .RGB => p c
  | .RGBA => p c
  | .RGBX => p c
  | .YCbCr => p c
  | .CMYK => ((255 - p c) * (255 - p 3)) / 255

/-- `img.convert('RGBA')`: palette images apply their RGBA palette; other
modes convert to RGB and gain an opaque alpha band. -/
def convertRGBA (img : Img) : Img :=
  { mode := .RGBA, width := img.width, height := img.height
    px := fun x y c =>
      match img.mode with
      | .P => img.palette (img.px x y 0) c
      | .PA => if c = 3 then img.px x y 1 else img.palette (img.px x y 0) c
      | .RGBA => img.px x y c
      | .LA => if c = 3 then img.px x y 1 else img.px x y 0
      | _ => if c = 3 then 255 else toRGBchannel img.mode (img.px x y) img.palette c
    palette := img.palette }

/-- `img.convert('RGB')`. -/
def convertRGB (img : Img) : Img :=
  { mode := .RGB, width := img.width, height := img.height
    px := fun x y c => toRGBchannel img.mode (img.px x y) img.palette c
    palette := img.palette }

/-- `img.split()[-1]`: the last band of the image as a grayscale plane
(the alpha band for `RGBA`/`LA`). -/
def splitLast (img : Img) : Nat → Nat → Nat :=
  fun x y => img.px x y (bands img.mode - 1)

/-- Pillow's paste blend with an `L` mask: where the mask is 255 the source
is copied, where it is 0 the destination is kept, in between they mix. -/
def blend (dst src m : Nat) : Nat :=
  (dst * (255 - m) + src * m) / 255

/-- `background.paste(img, mask=mask)` (paste at (0,0), returning the
updated background): inside the source rectangle each channel is blended by
the mask, with source pixels converted to the background's RGB mode. -/
def pasteMask (bg src : Img) (mask : Nat → Nat → Nat) : Img :=
  { bg with px := fun x y c =>
      if x < src.width ∧ y < src.height then
        blend (bg.px x y c) (toRGBchannel src.mode (src.px x y) src.palette c) (mask x y)
      else bg.px x y c }

/-- `background.paste(img)` without a mask: source pixels overwrite the
background inside the source rectangle. -/
def pasteNoMask (bg src : Img) : Img :=
  { bg with px := fun x y c =>
      if x < src.width ∧ y < src.height then
        toRGBchannel src.mode (src.px x y) src.palette c
      else bg.px x y c }

/-- Lines 86-96 of `DOWNLOAD_IMAGES.py`: normalize the color mode.  `RGBA`,
`LA` and `P` images are composited onto an opaque white background (palette
images are first converted to `RGBA`); any other non-RGB mode is converted
to RGB directly. -/
def normalizeColorMode (img : Img) : Img :=
  if img.mode = .RGBA ∨ img.mode = .LA ∨ img.mode = .P then
    let background := imageNewRGBWhite img.width img.height
    let img1 := if img.mode = .P then convertRGBA img else img
    if img1.mode = .RGBA ∨ img1.mode = .LA then
      pasteMask background img1 (splitLast img1)
    else
      pasteNoMask background img1
  else if img.mode ≠ .RGB then
    convertRGB img
  else
    img

/-- The path condition of the unmasked `background.paste(img)` branch on
line 93: the outer compositing branch was entered but, after the optional
palette conversion, the image mode is neither `RGBA` nor `LA`. -/
def unmaskedPasteReached (img : Img) : Bool :=
  if img.mode = .RGBA ∨ img.mode = .LA ∨ img.mode = .P then
    let img1 := if img.mode = .P then convertRGBA img else img
    ¬(img1.mode = .RGBA ∨ img1.mode = .LA)
  else false

/-! ### The item pipeline: `download_and_optimize` -/

/-- `OUTPUT_DIR = 'assets/images'` (line 56). -/
def OUTPUT_DIR : String := "assets/images"

/-- `WEBP_QUALITY = 85` (line 57). -/
def WEBP_QUALITY : Nat := 85

/-- The static request headers (lines 74-77). -/
def HEADERS : List (String × String) :=
  [("User-Agent", "Mozilla/5.0 (Macintosh; Intel Mac OS X 10_15_7) AppleWebKit/537.36"),
   ("Referer", "https://www.urbanways.co.in/")]

/-- An HTTP GET request as issued by `requests.get(url, headers=..., timeout=30)`. -/
structure Request where
  url : String
  headers : List (String × String)
  timeout : Nat
deriving DecidableEq, Repr

/-- The request built for one item (lines 62, 79): templated URL, the two
static headers, 30 second timeout. -/
def mkRequest (photoId : String) (width : Nat) : Request :=
  { url := "https://images.unsplash.com/" ++ photoId ++ "?w=" ++ toString width ++ "&q=80"
    headers := HEADERS
    timeout := 30 }

/-- An HTTP response: status code and body bytes. -/
structure Response where
  status : Nat
  content : List Nat
deriving DecidableEq, Repr

/-- `response.raise_for_status()` raises exactly for 4xx and 5xx statuses. -/
def raisesForStatus (status : Nat) : Prop := 400 ≤ status ∧ status ≤ 599

instance (s : Nat) : Decidable (raisesForStatus s) := by
  unfold raisesForStatus; infer_instance

/-- The keyword arguments of `img.save(path, 'WEBP', quality=..., method=6,
lossless=False)` (lines 99-105). -/
structure SaveParams where
  format : String
  quality : Nat
  method : Nat
  lossless : Bool
deriving DecidableEq, Repr

/-- One recorded invocation of the encoder: target path, the image handed
to `save`, and the encoding parameters. -/
structure SaveCall where
  path : String
  img : Img
  params : SaveParams

/-- The filesystem restricted to what the script touches: a map from path
to file bytes (`none` = file absent). -/
def FS : Type := String → Option (List Nat)

/-- An absent-everywhere filesystem. -/
def fsEmpty : FS := fun _ => none

/-- Writing a file. -/
def fsWrite (fs : FS) (path : String) (bytes : List Nat) : FS :=
  fun q => if q = path then some bytes else fs q

/-- The environment oracles: the network, Pillow's decoder, and the WebP
encoder.  `Except String` models a raised exception carrying a message. -/
structure Env where
  http : Request → Except String Response
  decode : List Nat → Except String Img
  encode : Img → SaveParams → Except String (List Nat)

/-- The output path `f'{OUTPUT_DIR}/{photo_id}.webp'` (line 63). -/
def outPath (photoId : String) : String :=
  OUTPUT_DIR ++ "/" ++ photoId ++ ".webp"

/-- Result of one `download_and_optimize` call: the returned boolean, the
filesystem afterwards, and the traces of HTTP requests issued, decode
attempts, and encoder invocations. -/
structure ItemResult where
  ok : Bool
  fs : FS
  requests : List Request
  decodes : List (List Nat)
  saves : List SaveCall

/-- Lines 59-116: `download_and_optimize(photo_id, width, description)`.
If the output file exists the item is skipped with success.  Otherwise the
bytes are fetched (`raise_for_status` turns 4xx/5xx into an exception),
decoded, color-normalized, and saved as WebP quality 85, method 6,
lossless=False.  Any exception in the `try` block is caught and the
function returns `False`.  Note the savings computation on line 109 divides
by `original_kb`; a zero-length response body that nonetheless decoded and
saved raises `ZeroDivisionError` after the file was written, so that path
returns `False` with the file on disk. -/
def download_and_optimize (env : Env) (fs : FS) (photoId : String) (width : Nat) :
    ItemResult :=
  let outputPath := outPath photoId
  if (fs outputPath).isSome then
    { ok := true, fs := fs, requests := [], decodes := [], saves := [] }
  else
    let req := mkRequest photoId width
    match env.http req with
    | .error _ => { ok := false, fs := fs, requests := [req], decodes := [], saves := [] }
    | .ok resp =>
      if raisesForStatus resp.status then
        { ok := false, fs := fs, requests := [req], decodes := [], saves := [] }
      else
        match env.decode resp.content with
        | .error _ =>
            { ok := false, fs := fs, requests := [req], decodes := [resp.content], saves := [] }
        | .ok img0 =>
          let img := normalizeColorMode img0
          let sp : SaveParams :=
            { format := "WEBP", quality := WEBP_QUALITY, method := 6, lossless := false }
          match env.encode img sp with
          | .error _ =>
              { ok := false, fs := fs, requests := [req], decodes := [resp.content]
                saves := [⟨outputPath, img, sp⟩] }
          | .ok bytes =>
            let fs1 := fsWrite fs outputPath bytes
            if resp.content.length = 0 then
              -- ZeroDivisionError computing the savings percentage (line 109)
              { ok := false, fs := fs1, requests := [req], decodes := [resp.content]
                saves := [⟨outputPath, img, sp⟩] }
            else
              { ok := true, fs := fs1, requests := [req], decodes := [resp.content]
                saves := [⟨outputPath, img, sp⟩] }

/-! ### The driver: `main` -/

/-- One entry of the `IMAGES` list: (photo id, width, description). -/
def Item : Type := String × Nat × String

/-- The fixed `IMAGES` list (lines 24-54). -/
def IMAGES : List Item :=
  [("photo-1503387762-592deb58ef4e", 1920, "Architect reviewing building plans"),
   ("photo-1600607687939-ce8a6c25118c", 1920, "HERO IMAGE - Modern interior living room"),
   ("photo-1566073771259-6a8506099945", 1920, "Contemporary interior design"),
   ("photo-1486406146926-c627a92ad1ab", 1920, "Modern office building"),
   ("photo-1524813686514-a57563d77965", 1920, "Minimalist interior"),
   ("photo-1556911220-bff31c812dba", 1920, "Modern kitchen design"),
   ("photo-1618221195710-dd6b41faaea6", 1920, "Interior design with plants"),
   ("photo-1616486338812-3dadae4b4ace", 1920, "Contemporary living space"),
   ("photo-1541888946425-d81bb19240f5", 1920, "Construction site"),
   ("photo-1558904541-efa843a96f01", 1200, "Service image"),
   ("photo-1600210492486-724fe5c67fb0", 1200, "Floor to ceiling windows"),
   ("photo-1586023492125-27b2c045efd7", 1200, "Neutral color interior"),
   ("photo-1556912167-f556f1f39faa", 1200, "Multi-functional space"),
   ("photo-1615873968403-89e068629265", 1200, "Modern flooring"),
   ("photo-1513519245088-0e12902e35ca", 1200, "Statement wall art"),
   ("photo-1505693416388-ac5ce068fe85", 1200, "Cozy reading nook"),
   ("photo-1558002038-1055907df827", 1200, "Smart home technology"),
   ("photo-1463320726281-696a485928c7", 1200, "Indoor plants biophilic"),
   ("photo-1554224311-beee4f201d8d", 800, "Interior designer portfolio"),
   ("photo-1560518883-ce09059eeffa", 1920, "Luxury interior"),
   ("photo-1454165804606-c3d57bc86b40", 1200, "Budget planning"),
   ("photo-1552321554-5fefe8c9ef14", 1200, "Modern bathroom"),
   ("photo-1460472178825-e5240623afd5", 1200, "Design factors"),
   ("photo-1523726491678-bf852e717f6a", 1200, "Cost analysis"),
   ("photo-1554224155-6726b3ff858f", 1200, "Budget strategies"),
   ("photo-1600880292203-757bb62b4baf", 1200, "Professional team"),
   ("photo-1553877522-43269d4ea984", 1200, "Design consultation"),
   ("photo-1423666639041-f56000c27a9a", 1920, "Modern architecture"),
   ("photo-1507003211169-0a1dd7228f2d", 1920, "Professional portrait")]

/-- The loop accumulator of `main` (lines 128-137): filesystem, success
count, total byte size, plus the per-item boolean results in order. -/
structure LoopState where
  fs : FS
  success_count : Nat
  total_size : Nat
  results : List Bool

/-- `os.path.getsize` of an item's artifact, 0 when absent. -/
def artifactSize (fs : FS) (photoId : String) : Nat :=
  match fs (outPath photoId) with
  | some bytes => bytes.length
  | none => 0

/-- One iteration of the `for` loop (lines 131-137): run the item; on
success increment the counter and, if the output file exists, add its size. -/
def loopStep (env : Env) (st : LoopState) (item : Item) : LoopState :=
  let r := download_and_optimize env st.fs item.1 item.2.1
  if r.ok then
    { fs := r.fs
      success_count := st.success_count + 1
      total_size := st.total_size +
        (if (r.fs (outPath item.1)).isSome then artifactSize r.fs item.1 else 0)
      results := st.results ++ [r.ok] }
  else
    { fs := r.fs
      success_count := st.success_count
      total_size := st.total_size
      results := st.results ++ [r.ok] }

/-- The whole `for` loop over a list of items. -/
def runItems (env : Env) : List Item → LoopState → LoopState
  | [], st => st
  | item :: rest, st => runItems env rest (loopStep env st item)

/-- Result of `main` (lines 118-155): final loop state, whether the
all-success closing message (rather than the partial-failure warning) was
printed, and the process exit code (the script falls through normally, so
always 0). -/
structure MainResult where
  fs : FS
  success_count : Nat
  total_size : Nat
  results : List Bool
  allSuccessMessage : Bool
  exitCode : Nat

/-- `main()` followed by normal process exit. -/
def main (env : Env) (fs0 : FS) : MainResult :=
  let st := runItems env IMAGES { fs := fs0, success_count := 0, total_size := 0, results := [] }
  { fs := st.fs
    success_count := st.success_count
    total_size := st.total_size
    results := st.results
    allSuccessMessage := st.success_count == IMAGES.length
    exitCode := 0 }

/-! ### Concrete fixtures used by witnesses and counterexamples -/

/-- A 1x1 fully transparent RGBA image. -/
def imgEx : Img :=
  { mode := .RGBA, width := 1, height := 1, px := fun _ _ _ => 0, palette := fun _ _ => 0 }

/-- An environment where every oracle raises. -/
def envFail : Env :=
  { http := fun _ => .error "connection error"
    decode := fun _ => .error "cannot identify image file"
    encode := fun _ _ => .error "encoder error" }

/-- An environment where every fetch succeeds with status 200 and a
non-empty body, decoding yields `imgEx`, and encoding yields two bytes. -/
def envOk : Env :=
  { http := fun _ => .ok { status := 200, content := [1] }
    decode := fun _ => .ok imgEx
    encode := fun _ _ => .ok [7, 7] }

/-- A filesystem holding only the artifact for photo id "p". -/
def fsOne : FS := fsWrite fsEmpty (outPath "p") [1, 2, 3]

/-! ### Theorems -/

/-- The color-mode normalization always yields mode RGB. -/
theorem normalizeColorMode_mode (img : Img) : (normalizeColorMode img).mode = .RGB := by
  cases h : img.mode <;>
    simp [normalizeColorMode, h, convertRGBA, convertRGB, pasteMask, pasteNoMask,
      imageNewRGBWhite]

/-- C9: the unmasked-paste branch (line 93) is unreachable: whenever the
compositing branch is entered (mode `RGBA`, `LA` or `P`), after the
palette-to-RGBA conversion the image mode is `RGBA` or `LA`, so the masked
paste always executes. -/
theorem unmaskedPaste_unreachable (img : Img) : unmaskedPasteReached img = false := by
  cases h : img.mode <;> simp [unmaskedPasteReached, h, convertRGBA]

/-- A 1x1 `PA` (palette with alpha) image whose single pixel has palette
index 0 and alpha 0, with an all-black palette. -/
def imgPA : Img :=
  { mode := .PA, width := 1, height := 1, px := fun _ _ _ => 0, palette := fun _ _ => 0 }

/-- C1 counterexample: a `PA` source carries an alpha band, yet the code's
compositing branch only matches `('RGBA', 'LA', 'P')`, so a `PA` image
takes the direct `convert('RGB')` path, which drops the alpha band and
keeps the palette colors.  For a fully transparent black-palette pixel the
normalized value is 0, not white's 255, refuting the claim for every
alpha-bearing source. -/
theorem transparent_pixel_white_counterexample :
    modeHasAlpha imgPA.mode = true ∧
    imgPA.px 0 0 (bands imgPA.mode - 1) = 0 ∧
    (normalizeColorMode imgPA).px 0 0 0 = 0 ∧
    ¬(normalizeColorMode imgPA).px 0 0 0 = 255 := by
  exact ⟨rfl, rfl, rfl, by decide⟩

/-- C1 (amended): for a source image with an alpha channel whose mode the
compositing branch handles (mode `RGBA` or `LA`),
normalization composites onto an opaque white background, so at any
fully-transparent source pixel (alpha band = 0) inside the image every
channel of the normalized image equals white's 255. -/
theorem transparent_pixel_white (img : Img)
    (hm : img.mode = .RGBA ∨ img.mode = .LA)
    (x y : Nat) (hx : x < img.width) (hy : y < img.height)
    (ha : img.px x y (bands img.mode - 1) = 0) (c : Nat) :
    (normalizeColorMode img).px x y c = 255 := by
  rcases hm with h | h <;>
    simp [normalizeColorMode, h, pasteMask, imageNewRGBWhite, splitLast, bands, hx, hy] <;>
    simp [h, bands] at ha <;>
    simp [blend, ha]

/-- C1 witness: the 1x1 fully transparent RGBA image normalizes to white at
pixel (0,0), channel 0. -/
theorem transparent_pixel_white_witness :
    (normalizeColorMode imgEx).px 0 0 0 = 255 :=
  transparent_pixel_white imgEx (Or.inl rfl) 0 0 (by decide) (by decide) rfl 0

/-- C2: when the output artifact already exists, the per-item operation
issues no HTTP request, decodes nothing, invokes the encoder on nothing,
leaves the filesystem unchanged, and returns `True`. -/
theorem skip_when_exists (env : Env) (fs : FS) (photoId : String) (width : Nat)
    (h : (fs (outPath photoId)).isSome = true) :
    download_and_optimize env fs photoId width =
      { ok := true, fs := fs, requests := [], decodes := [], saves := [] } := by
  unfold download_and_optimize
  simp [h]

/-- C2 witness: with the artifact for "p" present, the item is skipped. -/
theorem skip_when_exists_witness :
    download_and_optimize envFail fsOne "p" 7 =
      { ok := true, fs := fsOne, requests := [], decodes := [], saves := [] } :=
  skip_when_exists envFail fsOne "p" 7 (by simp [fsOne, fsWrite, fsEmpty])

/-- Helper: the per-item operation issues either no request (skip) or
exactly the one templated request. -/
theorem requests_cases (env : Env) (fs : FS) (photoId : String) (width : Nat) :
    (download_and_optimize env fs photoId width).requests = [] ∨
    (download_and_optimize env fs photoId width).requests = [mkRequest photoId width] := by
  unfold download_and_optimize
  dsimp only
  split
  · exact Or.inl rfl
  · repeat' split
    all_goals exact Or.inr rfl

/-- Helper: every encoder invocation of the per-item operation passes the
normalized decoded image with the fixed WebP parameters. -/
theorem saves_cases (env : Env) (fs : FS) (photoId : String) (width : Nat) (s : SaveCall)
    (hs : s ∈ (download_and_optimize env fs photoId width).saves) :
    ∃ img0, s.path = outPath photoId ∧ s.img = normalizeColorMode img0 ∧
      s.params = { format := "WEBP", quality := WEBP_QUALITY, method := 6, lossless := false } := by
  unfold download_and_optimize at hs
  dsimp only at hs
  split at hs
  · simp at hs
  · split at hs
    · simp at hs
    · split at hs
      · simp at hs
      · split at hs
        · simp at hs
        · rename_i img0 hdec
          split at hs
          · simp at hs
            subst hs
            exact ⟨img0, rfl, rfl, rfl⟩
          · split at hs <;>
              (simp at hs
               subst hs
               exact ⟨img0, rfl, rfl, rfl⟩)

/-- Helper: the per-item operation touches no path other than the item's
own output path. -/
theorem download_fs_local (env : Env) (fs : FS) (photoId : String) (width : Nat)
    (p : String) (hp : p ≠ outPath photoId) :
    (download_and_optimize env fs photoId width).fs p = fs p := by
  unfold download_and_optimize
  dsimp only
  repeat' split
  all_goals simp [fsWrite, hp]

/-- Helper: a successful per-item operation leaves the item's artifact
present on disk (it was either already there, or was just written). -/
theorem download_ok_file (env : Env) (fs : FS) (photoId : String) (width : Nat)
    (h : (download_and_optimize env fs photoId width).ok = true) :
    ((download_and_optimize env fs photoId width).fs (outPath photoId)).isSome = true := by
  unfold download_and_optimize at h ⊢
  dsimp only at h ⊢
  repeat' split at h
  all_goals simp_all [fsWrite]

/-- Helper: each loop iteration appends the item's boolean result. -/
theorem loopStep_results (env : Env) (st : LoopState) (item : Item) :
    (loopStep env st item).results =
      st.results ++ [(download_and_optimize env st.fs item.1 item.2.1).ok] := by
  unfold loopStep
  dsimp only
  split <;> rename_i hok <;> simp [hok]

/-- Helper: the loop emits exactly one result per item. -/
theorem runItems_results_length (env : Env) (l : List Item) :
    ∀ st : LoopState, (runItems env l st).results.length = st.results.length + l.length := by
  induction l with
  | nil => intro st; simp [runItems]
  | cons item rest ih =>
      intro st
      rw [runItems, ih, loopStep_results]
      simp
      omega

/-- C3 counterexample: the claim quantifies over every non-success HTTP
status, but `raise_for_status` only raises for 4xx/5xx.  A 304 response
whose body decodes proceeds through the pipeline: the operation returns
`True` and writes the output file. -/
def env304 : Env :=
  { http := fun _ => .ok { status := 304, content := [1, 2] }
    decode := fun _ => .ok imgEx
    encode := fun _ _ => .ok [9] }

/-- C3 counterexample: with no pre-existing file and a fetch returning the
non-success status 304 with a decodable body, the per-item operation
returns `True` and creates the output file, contradicting the claim. -/
theorem nonsuccess_status_counterexample :
    (¬(200 ≤ 304 ∧ 304 ≤ 299)) ∧
    env304.http (mkRequest "p" 10) = .ok { status := 304, content := [1, 2] } ∧
    fsEmpty (outPath "p") = none ∧
    (download_and_optimize env304 fsEmpty "p" 10).ok = true ∧
    ((download_and_optimize env304 fsEmpty "p" 10).fs (outPath "p")).isSome = true := by
  refine ⟨by decide, rfl, rfl, rfl, rfl⟩

/-- C3 (amended): for every item whose fetch returns an HTTP status in the
error ranges 400-599 (the statuses `raise_for_status` raises on), when the
output file did not already exist, the per-item operation returns `False`,
leaves the filesystem unchanged, and the driver still processes all
remaining items (one result per item). -/
theorem error_status_fails (env : Env) (fs : FS) (photoId : String) (width : Nat)
    (h0 : fs (outPath photoId) = none)
    (resp : Response) (hh : env.http (mkRequest photoId width) = .ok resp)
    (hs : raisesForStatus resp.status) :
    (download_and_optimize env fs photoId width).ok = false ∧
    (download_and_optimize env fs photoId width).fs = fs ∧
    (main env fs).results.length = IMAGES.length := by
  have hd : download_and_optimize env fs photoId width =
      { ok := false, fs := fs, requests := [mkRequest photoId width]
        decodes := [], saves := [] } := by
    unfold download_and_optimize
    dsimp only
    rw [h0, hh]
    simp [hs]
  refine ⟨by rw [hd], by rw [hd], ?_⟩
  unfold main
  dsimp only
  rw [runItems_results_length]
  simp

/-- A response with a 404 status, used by the C3 witness. -/
def env404 : Env :=
  { http := fun _ => .ok { status := 404, content := [] }
    decode := fun _ => .error "cannot identify image file"
    encode := fun _ _ => .error "encoder error" }

/-- C3 witness: a 404 fetch on an empty filesystem fails without writing. -/
theorem error_status_fails_witness :
    (download_and_optimize env404 fsEmpty "p" 7).ok = false ∧
    (download_and_optimize env404 fsEmpty "p" 7).fs = fsEmpty ∧
    (main env404 fsEmpty).results.length = IMAGES.length :=
  error_status_fails env404 fsEmpty "p" 7 rfl { status := 404, content := [] } rfl
    (by constructor <;> decide)

/-- C4: for every item and any decodable source mode, any image handed to
the encoder is the normalized one: mode RGB, no alpha band, exactly three
bands, so the persisted artifact's declared mode is opaque 3-channel. -/
theorem encoder_input_opaque_rgb (env : Env) (fs : FS) (photoId : String) (width : Nat)
    (s : SaveCall) (hs : s ∈ (download_and_optimize env fs photoId width).saves) :
    s.img.mode = Mode.RGB ∧ modeHasAlpha s.img.mode = false ∧ bands s.img.mode = 3 := by
  obtain ⟨img0, -, himg, -⟩ := saves_cases env fs photoId width s hs
  rw [himg, normalizeColorMode_mode]
  exact ⟨rfl, rfl, rfl⟩

/-- The encoder invocation produced by `envOk` for photo id "q". -/
def saveCallQ : SaveCall :=
  { path := outPath "q", img := normalizeColorMode imgEx
    params := { format := "WEBP", quality := 85, method := 6, lossless := false } }

/-- C4 witness: the save call of a full successful run for "q" carries an
opaque 3-band RGB image. -/
theorem encoder_input_opaque_rgb_witness :
    saveCallQ.img.mode = Mode.RGB ∧ modeHasAlpha saveCallQ.img.mode = false ∧
      bands saveCallQ.img.mode = 3 :=
  encoder_input_opaque_rgb envOk fsEmpty "q" 5 saveCallQ (List.Mem.head _)

/-- C5: every encoder invocation uses quality exactly 85, lossless mode
false, and maximum-effort compression method 6. -/
theorem encode_fixed_params (env : Env) (fs : FS) (photoId : String) (width : Nat)
    (s : SaveCall) (hs : s ∈ (download_and_optimize env fs photoId width).saves) :
    s.params.quality = 85 ∧ s.params.lossless = false ∧ s.params.method = 6 := by
  obtain ⟨img0, -, -, hp⟩ := saves_cases env fs photoId width s hs
  rw [hp]
  exact ⟨rfl, rfl, rfl⟩

/-- The encoder invocation produced by `envOk` for photo id "p". -/
def saveCallP : SaveCall :=
  { path := outPath "p", img := normalizeColorMode imgEx
    params := { format := "WEBP", quality := 85, method := 6, lossless := false } }

/-- C5 witness: the save call of a full successful run for "p" uses
quality 85, lossless false, method 6. -/
theorem encode_fixed_params_witness :
    saveCallP.params.quality = 85 ∧ saveCallP.params.lossless = false ∧
      saveCallP.params.method = 6 :=
  encode_fixed_params envOk fsEmpty "p" 3 saveCallP (List.Mem.head _)

/-- C6: every HTTP request issued for an item has exactly the templated URL
`{base}/{identifier}?w={width}&q=80`, carries exactly the two static
headers (User-Agent and Referer), uses a 30-second timeout, and at most one
request is issued per item (no retry). -/
theorem fetch_request_shape (env : Env) (fs : FS) (photoId : String) (width : Nat) :
    (∀ r ∈ (download_and_optimize env fs photoId width).requests,
      r.url = "https://images.unsplash.com/" ++ photoId ++ "?w=" ++ toString width ++ "&q=80" ∧
      r.headers =
        [("User-Agent", "Mozilla/5.0 (Macintosh; Intel Mac OS X 10_15_7) AppleWebKit/537.36"),
         ("Referer", "https://www.urbanways.co.in/")] ∧
      r.timeout = 30) ∧
    (download_and_optimize env fs photoId width).requests.length ≤ 1 := by
  rcases requests_cases env fs photoId width with h | h <;> rw [h]
  · exact ⟨by simp, by simp⟩
  · refine ⟨?_, by simp⟩
    intro r hr
    rw [List.mem_singleton] at hr
    subst hr
    exact ⟨rfl, rfl, rfl⟩

/-- C6 witness: the single request of a successful run for "p" at width
1920 has the templated URL, the two static headers, and timeout 30. -/
theorem fetch_request_shape_witness :
    (mkRequest "p" 1920).url =
      "https://images.unsplash.com/" ++ "p" ++ "?w=" ++ toString 1920 ++ "&q=80" ∧
    (mkRequest "p" 1920).headers =
      [("User-Agent", "Mozilla/5.0 (Macintosh; Intel Mac OS X 10_15_7) AppleWebKit/537.36"),
       ("Referer", "https://www.urbanways.co.in/")] ∧
    (mkRequest "p" 1920).timeout = 30 :=
  (fetch_request_shape envOk fsEmpty "p" 1920).1 (mkRequest "p" 1920) (List.Mem.head _)

/-- Helper: one loop iteration increments the success counter exactly when
the item's operation returned `True`. -/
theorem loopStep_success (env : Env) (st : LoopState) (item : Item) :
    (loopStep env st item).success_count =
      st.success_count +
        (if (download_and_optimize env st.fs item.1 item.2.1).ok = true then 1 else 0) := by
  unfold loopStep
  dsimp only
  split <;> rename_i h <;> simp [h]

/-- Helper: the filesystem after one loop iteration is the one the item's
operation produced. -/
theorem loopStep_fs (env : Env) (st : LoopState) (item : Item) :
    (loopStep env st item).fs = (download_and_optimize env st.fs item.1 item.2.1).fs := by
  unfold loopStep
  dsimp only
  split <;> rfl

/-- Helper: the loop appends one boolean per item and its success counter
counts exactly the `true` entries among them. -/
theorem runItems_spec (env : Env) (l : List Item) :
    ∀ st : LoopState, ∃ tr : List Bool,
      (runItems env l st).results = st.results ++ tr ∧
      tr.length = l.length ∧
      (runItems env l st).success_count = st.success_count + tr.count true := by
  induction l with
  | nil => intro st; exact ⟨[], by simp [runItems], rfl, by simp [runItems]⟩
  | cons item rest ih =>
      intro st
      obtain ⟨tr, h1, h2, h3⟩ := ih (loopStep env st item)
      refine ⟨(download_and_optimize env st.fs item.1 item.2.1).ok :: tr, ?_, by simp [h2], ?_⟩
      · rw [runItems, h1, loopStep_results]
        simp
      · rw [runItems, h3, loopStep_success]
        cases hok : (download_and_optimize env st.fs item.1 item.2.1).ok <;>
          simp [hok, List.count_cons] <;> omega

/-- Helper: the loop never touches a path outside the output paths of its
items. -/
theorem runItems_fs_local (env : Env) (l : List Item) :
    ∀ (st : LoopState) (p : String), p ∉ l.map (fun i => outPath i.1) →
      (runItems env l st).fs p = st.fs p := by
  induction l with
  | nil => intro st p _; rfl
  | cons item rest ih =>
      intro st p hp
      rw [List.map_cons, List.mem_cons] at hp
      push_neg at hp
      rw [runItems, ih _ p hp.2, loopStep_fs]
      exact download_fs_local env st.fs item.1 item.2.1 p hp.1

/-- Helper: the loop's success counter grows by at most one per item. -/
theorem runItems_success_le (env : Env) (l : List Item) (st : LoopState) :
    (runItems env l st).success_count ≤ st.success_count + l.length := by
  obtain ⟨tr, -, h2, h3⟩ := runItems_spec env l st
  rw [h3]
  have := List.count_le_length true tr
  omega

/-- Helper: when every item of the loop succeeded and the items' output
paths are pairwise distinct, each item's artifact is present afterwards. -/
theorem runItems_all_ok_files (env : Env) (l : List Item) :
    ∀ st : LoopState, (l.map (fun i => outPath i.1)).Nodup →
      (runItems env l st).success_count = st.success_count + l.length →
      ∀ item ∈ l, ((runItems env l st).fs (outPath item.1)).isSome = true := by
  induction l with
  | nil => intro st _ _ item h; simp at h
  | cons hd rest ih =>
      intro st hnd hsc item hmem
      rw [List.map_cons, List.nodup_cons] at hnd
      have hδ := loopStep_success env st hd
      have hle := runItems_success_le env rest (loopStep env st hd)
      rw [runItems] at hsc
      have hok : (download_and_optimize env st.fs hd.1 hd.2.1).ok = true := by
        by_contra hno
        rw [if_neg hno] at hδ
        simp [List.length_cons] at hsc
        omega
      have hsc' : (runItems env rest (loopStep env st hd)).success_count =
          (loopStep env st hd).success_count + rest.length := by
        rw [hδ, if_pos hok]
        simp [List.length_cons] at hsc
        omega
      rw [runItems]
      rcases List.mem_cons.mp hmem with hmem | hmem
      · subst hmem
        rw [runItems_fs_local env rest _ _ hnd.1, loopStep_fs]
        exact download_ok_file env st.fs item.1 item.2.1 hok
      · exact ih _ hnd.2 hsc' item hmem

/-- The sum, over a list of (item, per-item result) pairs, of the on-disk
sizes of the artifacts of the successful items, in the given filesystem. -/
def sumSizes (fs : FS) (l : List (Item × Bool)) : Nat :=
  (l.map (fun pr => if pr.2 = true then artifactSize fs pr.1.1 else 0)).sum

/-- Helper: guarding an artifact size by the file's existence is redundant,
because an absent file contributes size 0 anyway. -/
theorem artifactSize_if (fs : FS) (photoId : String) :
    (if (fs (outPath photoId)).isSome = true then artifactSize fs photoId else 0) =
      artifactSize fs photoId := by
  unfold artifactSize
  cases fs (outPath photoId) <;> simp

/-- Helper: one loop iteration adds, for a successful item, the size its
artifact has right after the item's operation. -/
theorem loopStep_total (env : Env) (st : LoopState) (item : Item) :
    (loopStep env st item).total_size = st.total_size +
      (if (download_and_optimize env st.fs item.1 item.2.1).ok = true
       then artifactSize (download_and_optimize env st.fs item.1 item.2.1).fs item.1
       else 0) := by
  unfold loopStep
  dsimp only
  split <;> rename_i h <;> simp [h, artifactSize_if]

/-- Helper: over items with pairwise distinct output paths, the loop's
total size is the sum of the final on-disk sizes of the successful items'
artifacts. -/
theorem runItems_total (env : Env) (l : List Item) :
    ∀ st : LoopState, (l.map (fun i => outPath i.1)).Nodup →
      ∃ tr : List Bool,
        (runItems env l st).results = st.results ++ tr ∧
        (runItems env l st).total_size =
          st.total_size + sumSizes (runItems env l st).fs (l.zip tr) := by
  induction l with
  | nil => intro st _; exact ⟨[], by simp [runItems], by simp [runItems, sumSizes]⟩
  | cons hd rest ih =>
      intro st hnd
      rw [List.map_cons, List.nodup_cons] at hnd
      obtain ⟨tr, h1, h3⟩ := ih (loopStep env st hd) hnd.2
      refine ⟨(download_and_optimize env st.fs hd.1 hd.2.1).ok :: tr, ?_, ?_⟩
      · rw [runItems, h1, loopStep_results]
        simp
      · rw [runItems, h3, loopStep_total]
        have hfinal : (runItems env rest (loopStep env st hd)).fs (outPath hd.1) =
            (download_and_optimize env st.fs hd.1 hd.2.1).fs (outPath hd.1) := by
          rw [runItems_fs_local env rest _ _ hnd.1, loopStep_fs]
        simp [List.zip_cons_cons, sumSizes, artifactSize]
        rw [hfinal]
        cases hok : (download_and_optimize env st.fs hd.1 hd.2.1).ok <;> simp [hok] <;> omega

/-- The output paths of the 29 items are pairwise distinct. -/
theorem IMAGES_outPaths_nodup : (IMAGES.map (fun i => outPath i.1)).Nodup := by
  set_option maxRecDepth 100000 in decide

/-- C8: for every environment — any mixture of fetch, decode, encode or
persist failures — every item is processed (one boolean result per item,
errors are caught at the per-item boundary) and the process exits 0. -/
theorem driver_isolation (env : Env) (fs0 : FS) :
    (main env fs0).results.length = IMAGES.length ∧ (main env fs0).exitCode = 0 := by
  constructor
  · unfold main
    dsimp only
    rw [runItems_results_length]
    simp
  · rfl

/-- C7: the item list has 29 entries; for every run the summary's success
count is the number of items whose operation returned `True` out of the 29
results; starting from an empty output directory, when all 29 succeed the
final filesystem contains a file exactly at the 29 paths
`{outputDir}/{identifier}.{ext}`; and the all-success closing message is
printed exactly when all 29 succeeded. -/
theorem driver_summary :
    IMAGES.length = 29 ∧
    (∀ (env : Env) (fs0 : FS),
      (main env fs0).results.length = 29 ∧
      (main env fs0).success_count = (main env fs0).results.count true) ∧
    (∀ env : Env, (main env fsEmpty).success_count = 29 →
      ∀ p : String, ((main env fsEmpty).fs p).isSome = true ↔
        p ∈ IMAGES.map (fun i => outPath i.1)) ∧
    (∀ (env : Env) (fs0 : FS),
      (main env fs0).allSuccessMessage = true ↔ (main env fs0).success_count = 29) := by
  refine ⟨rfl, ?_, ?_, ?_⟩
  · intro env fs0
    unfold main
    dsimp only
    obtain ⟨tr, h1, h2, h3⟩ := runItems_spec env IMAGES
      { fs := fs0, success_count := 0, total_size := 0, results := [] }
    refine ⟨?_, ?_⟩
    · rw [runItems_results_length]
      rfl
    · rw [h3, h1]
      simp
  · intro env hsc p
    unfold main at hsc ⊢
    dsimp only at hsc ⊢
    constructor
    · intro hp
      by_contra hnp
      rw [runItems_fs_local env IMAGES _ p hnp] at hp
      simp [fsEmpty] at hp
    · intro hp
      obtain ⟨item, hitem, rfl⟩ := List.mem_map.mp hp
      refine runItems_all_ok_files env IMAGES _ IMAGES_outPaths_nodup ?_ item hitem
      rw [hsc]
      rfl
  · intro env fs0
    unfold main
    dsimp only
    rw [Nat.beq_eq_true_eq]
    exact Iff.rfl

/-- C7 witness: under an all-success environment starting from an empty
directory, the first item's artifact path is occupied and is among the 29
output paths. -/
theorem driver_summary_witness :
    ((main envOk fsEmpty).fs (outPath "photo-1503387762-592deb58ef4e")).isSome = true ↔
      outPath "photo-1503387762-592deb58ef4e" ∈ IMAGES.map (fun i => outPath i.1) :=
  driver_summary.2.2.1 envOk (by set_option maxRecDepth 100000 in rfl)
    (outPath "photo-1503387762-592deb58ef4e")

/-- C10: the reported total size is the sum of the final on-disk sizes of
the artifacts of every item whose operation returned `True` — including
items skipped because their file already existed before the run. -/
theorem total_size_sums_successful_artifacts (env : Env) (fs0 : FS) :
    (main env fs0).total_size =
      sumSizes (main env fs0).fs (IMAGES.zip (main env fs0).results) := by
  unfold main
  dsimp only
  obtain ⟨tr, h1, h3⟩ := runItems_total env IMAGES
    { fs := fs0, success_count := 0, total_size := 0, results := [] } IMAGES_outPaths_nodup
  rw [h3, h1]
  simp

end DownloadImages
